import Mathlib

set_option autoImplicit false

/-!
Shallow embedding of `src/library.py`: a three-class system (Library, Shelf,
Book) with manual, pull-based back-reference synchronization.

Python objects live in stores indexed by natural-number identities.  Python
list objects (the values of `Library.shelves` and `Shelf.books`) live in a
separate store `lists`, so that aliasing of collections, live references
returned by getters, and out-of-band mutation of collections are represented
faithfully.  Every operation of the source is translated as a state
transformer on the whole store.
-/

namespace PyLib

/-- A Book object of `src/library.py`: `title`, `author`, and the two
back-references `self.library` and `self.shelf` (object identities;
`none` is Python `None`). -/
structure Book where
  title : String
  author : String
  library : Option Nat
  shelf : Option Nat
deriving DecidableEq

/-- A Shelf object: `name`, the identity of the list object stored in
`self.books`, and the back-reference `self.library`. -/
structure Shelf where
  name : String
  books : Nat
  library : Option Nat
deriving DecidableEq

/-- A Library object: `name` and the identity of the list object stored in
`self.shelves`. -/
structure Library where
  name : String
  shelves : Nat
deriving DecidableEq

/-- The whole mutable heap: stores of Book, Shelf and Library objects and of
list objects (lists of object identities). -/
@[ext]
structure State where
  books : Nat → Book
  shelves : Nat → Shelf
  libraries : Nat → Library
  lists : Nat → List Nat

/-- Overwrite the Book object at identity `i`. -/
def State.setBook (s : State) (i : Nat) (b : Book) : State :=
  { s with books := fun j => if j = i then b else s.books j }

/-- Overwrite the Shelf object at identity `i`. -/
def State.setShelf (s : State) (i : Nat) (sh : Shelf) : State :=
  { s with shelves := fun j => if j = i then sh else s.shelves j }

/-- Overwrite the Library object at identity `i`. -/
def State.setLibrary (s : State) (i : Nat) (li : Library) : State :=
  { s with libraries := fun j => if j = i then li else s.libraries j }

/-- Overwrite the list object at identity `r`. -/
def State.setList (s : State) (r : Nat) (l : List Nat) : State :=
  { s with lists := fun q => if q = r then l else s.lists q }

/-- Loop body of `Library._sync_shelves`: `for shelf in <l>: shelf.library = self`. -/
def syncShelvesAux (lid : Nat) (l : List Nat) (s : State) : State :=
  l.foldl (fun st sid => st.setShelf sid { st.shelves sid with library := some lid }) s

/-- `Library._sync_shelves` (src/library.py lines 46-50): every Shelf in
`self.shelves` gets `shelf.library = self`. -/
def Library.sync_shelves (lid : Nat) (s : State) : State :=
  syncShelvesAux lid (s.lists (s.libraries lid).shelves) s

/-- Loop body of `Shelf._sync_books`:
`for book in <l>: book.library = self.library; book.shelf = self`. -/
def syncBooksAux (sid : Nat) (l : List Nat) (s : State) : State :=
  l.foldl (fun st bid =>
    st.setBook bid { st.books bid with library := (st.shelves sid).library, shelf := some sid }) s

/-- `Shelf._sync_books` (src/library.py lines 113-118): every Book in
`self.books` gets `book.library = self.library` and `book.shelf = self`. -/
def Shelf.sync_books (sid : Nat) (s : State) : State :=
  syncBooksAux sid (s.lists (s.shelves sid).books) s

/-- Loop body of `Library._sync_books`: `for shelf in <l>: shelf._sync_books()`. -/
def libBooksAux (l : List Nat) (s : State) : State :=
  l.foldl (fun st sid => Shelf.sync_books sid st) s

/-- `Library._sync_books` (src/library.py lines 52-56): delegate to every
contained Shelf's `_sync_books`. -/
def Library.sync_books (lid : Nat) (s : State) : State :=
  libBooksAux (s.lists (s.libraries lid).shelves) s

/-- The copy loop of both constructors: `for x in <src>: self.<coll>.append(x)`
appending into the list object `r` (which the constructor freshly set to `[]`). -/
def copyInto (r : Nat) (src : List Nat) (s : State) : State :=
  src.foldl (fun st x => st.setList r (st.lists r ++ [x])) s

/-- `Book.__init__` (src/library.py lines 138-144): both back-references start
absent. -/
def Book.init (s : State) (bid : Nat) (title author : String) : State :=
  s.setBook bid { title := title, author := author, library := none, shelf := none }

/-- `Shelf.__init__` (src/library.py lines 90-98): `self.books = []` (a fresh
list object `r`), `self.library = None`, copy of the argument list's contents,
then `self._sync_books()`. -/
def Shelf.init (s : State) (sid : Nat) (name : String) (initBooks : List Nat) (r : Nat) : State :=
  Shelf.sync_books sid
    (copyInto r initBooks ((s.setShelf sid { name := name, books := r, library := none }).setList r []))

/-- `Library.__init__` (src/library.py lines 26-34): `self.shelves = []` (a
fresh list object `r`), copy of the argument list's contents, then
`self._sync_shelves()` and `self._sync_books()`. -/
def Library.init (s : State) (lid : Nat) (name : String) (initShelves : List Nat) (r : Nat) : State :=
  Library.sync_books lid
    (Library.sync_shelves lid
      (copyInto r initShelves ((s.setLibrary lid { name := name, shelves := r }).setList r [])))

/-- `Library.get_shelves` (src/library.py lines 58-61): returns `self.shelves`
itself, i.e. the identity of the live internal list object. -/
def Library.get_shelves (s : State) (lid : Nat) : Nat :=
  (s.libraries lid).shelves

/-- `Shelf.get_books` (src/library.py lines 120-123): returns `self.books`
itself, i.e. the identity of the live internal list object. -/
def Shelf.get_books (s : State) (sid : Nat) : Nat :=
  (s.shelves sid).books

/-- `Library.get_books` (src/library.py lines 69-75): `books = []`, then
`books += shelf.get_books()` for each shelf, returning the fresh list's value. -/
def Library.get_books (s : State) (lid : Nat) : List Nat :=
  (s.lists (s.libraries lid).shelves).foldl
    (fun acc sid => acc ++ s.lists (Shelf.get_books s sid)) []

/-- Direct external mutation `<list>.append(x)` on the list object `r`
(as in `library1.shelves.append(shelf2)` of the demo). -/
def listAppend (s : State) (r : Nat) (x : Nat) : State :=
  s.setList r (s.lists r ++ [x])

/-- Direct external mutation `<list>.extend(xs)` on the list object `r`
(as in `shelf2.books.extend([book4, book5])` of the demo). -/
def listExtend (s : State) (r : Nat) (xs : List Nat) : State :=
  s.setList r (s.lists r ++ xs)

/-- `Library.__str__` (src/library.py lines 41-44). -/
def Library.str (s : State) (lid : Nat) : String :=
  (s.libraries lid).name

/-- `Shelf.__str__` (src/library.py lines 108-111). -/
def Shelf.str (s : State) (sid : Nat) : String :=
  (s.shelves sid).name

/-- `Book.__str__` (src/library.py lines 156-159): the title single-quoted. -/
def Book.str (s : State) (bid : Nat) : String :=
  "\x27" ++ (s.books bid).title ++ "\x27"

/-- What `str.format` inserts for a `library` back-reference slot:
`str(None)` is `"None"`, and `str` of a Library is its `__str__`. -/
def strOfOptLibrary (s : State) : Option Nat → String
  | none => "None"
  | some lid => Library.str s lid

/-- What `str.format` inserts for a `shelf` back-reference slot. -/
def strOfOptShelf (s : State) : Option Nat → String
  | none => "None"
  | some sid => Shelf.str s sid

/-- `Library.__repr__` (src/library.py lines 36-39). -/
def Library.reprStr (s : State) (lid : Nat) : String :=
  "<Library: " ++ (s.libraries lid).name ++ ">"

/-- `Shelf.__repr__` (src/library.py lines 100-106). -/
def Shelf.reprStr (s : State) (sid : Nat) : String :=
  "<Shelf: " ++ (s.shelves sid).name ++ " (library: " ++
    strOfOptLibrary s (s.shelves sid).library ++ ")>"

/-- `Book.__repr__` (src/library.py lines 146-154). -/
def Book.reprStr (s : State) (bid : Nat) : String :=
  "<Book: " ++ (s.books bid).title ++ " by " ++ (s.books bid).author ++
    " (library: " ++ strOfOptLibrary s (s.books bid).library ++
    ", shelf: " ++ strOfOptShelf s (s.books bid).shelf ++ ")>"

/-- The last shelf identity in `l` whose book collection contains book `j`,
starting from accumulator `acc`; this is the net winner of the overwrites
performed by `Library._sync_books` when collections overlap. -/
def lastOwnerFrom (s : State) (j : Nat) (l : List Nat) (acc : Option Nat) : Option Nat :=
  l.foldl (fun a sid => if j ∈ s.lists (s.shelves sid).books then some sid else a) acc

/-- Concatenation of the shelves' book collections, in shelf order then book
order, written exactly as the spec describes `GetBooks()`. -/
def get_books_spec (s : State) (lid : Nat) : List Nat :=
  ((s.lists (s.libraries lid).shelves).map (fun sid => s.lists (s.shelves sid).books)).flatten

/-- A heap in which every identity maps to a blank object and every list
object is empty; base state for the concrete scenarios below. -/
def emptyState : State where
  books := fun _ => { title := "", author := "", library := none, shelf := none }
  shelves := fun _ => { name := "", books := 0, library := none }
  libraries := fun _ => { name := "", shelves := 0 }
  lists := fun _ => []

/-- Scenario: one book (identity 0) placed on two different shelves
(identities 0 and 1, with list objects 0 and 1), then a Library (identity 0,
list object 2) constructed with both shelves. -/
def twoShelfScenario : State :=
  Library.init
    (Shelf.init (Shelf.init (Book.init emptyState 0 "t" "a") 0 "s1" [0] 0) 1 "s2" [0] 1)
    0 "L" [0, 1] 2

/-- A heap in which library 0 holds shelves 0 and 1 (via list object 2) and
both shelves' book collections (list objects 0 and 1) contain book 0. -/
def sharedBookState : State where
  books := fun _ => { title := "t", author := "a", library := none, shelf := none }
  shelves := fun n => { name := "s", books := n, library := none }
  libraries := fun _ => { name := "L", shelves := 2 }
  lists := fun n => if n = 2 then [0, 1] else [0]

/-- A heap with a stale world: every shelf is bound to library 7 and holds
list object 0, every book is bound to library 9 and shelf 9, and every list
object is `[0]`. -/
def staleState : State where
  books := fun _ => { title := "t", author := "a", library := some 9, shelf := some 9 }
  shelves := fun _ => { name := "s", books := 0, library := some 7 }
  libraries := fun _ => { name := "L", shelves := 0 }
  lists := fun _ => [0]

/-- A heap whose library 0 is named "L"; used for display-form evaluations. -/
def namedLibState : State :=
  emptyState.setLibrary 0 { name := "L", shelves := 0 }

/-- A heap with shelf 0 holding list object 0 containing book 0. -/
def oneShelfBase : State :=
  (emptyState.setShelf 0 { name := "s", books := 0, library := none }).setList 0 [0]

/-- A heap with library 0 holding (via list object 1) the single shelf 0,
which holds book 0. -/
def oneLibBase : State :=
  ((oneShelfBase.setLibrary 0 { name := "L", shelves := 1 }).setList 1 [0])

/-- A heap with mixed book back-references: book 0 has an absent library but
a present shelf (the state a book is left in by `Shelf.__init__` before any
library attaches), and book 1 has a present library but an absent shelf. -/
def mixedBookState : State where
  books := fun n =>
    if n = 0 then { title := "t", author := "a", library := none, shelf := some 0 }
    else { title := "u", author := "b", library := some 0, shelf := none }
  shelves := fun _ => { name := "s", books := 0, library := some 0 }
  libraries := fun _ => { name := "L", shelves := 0 }
  lists := fun _ => [0]

/-! Store-update lemmas. -/

@[simp]
theorem setBook_books (s : State) (i : Nat) (b : Book) (j : Nat) :
    (s.setBook i b).books j = if j = i then b else s.books j := rfl

@[simp]
theorem setBook_shelves (s : State) (i : Nat) (b : Book) :
    (s.setBook i b).shelves = s.shelves := rfl

@[simp]
theorem setBook_libraries (s : State) (i : Nat) (b : Book) :
    (s.setBook i b).libraries = s.libraries := rfl

@[simp]
theorem setBook_lists (s : State) (i : Nat) (b : Book) :
    (s.setBook i b).lists = s.lists := rfl

@[simp]
theorem setShelf_shelves (s : State) (i : Nat) (sh : Shelf) (j : Nat) :
    (s.setShelf i sh).shelves j = if j = i then sh else s.shelves j := rfl

@[simp]
theorem setShelf_books (s : State) (i : Nat) (sh : Shelf) :
    (s.setShelf i sh).books = s.books := rfl

@[simp]
theorem setShelf_libraries (s : State) (i : Nat) (sh : Shelf) :
    (s.setShelf i sh).libraries = s.libraries := rfl

@[simp]
theorem setShelf_lists (s : State) (i : Nat) (sh : Shelf) :
    (s.setShelf i sh).lists = s.lists := rfl

@[simp]
theorem setLibrary_libraries (s : State) (i : Nat) (li : Library) (j : Nat) :
    (s.setLibrary i li).libraries j = if j = i then li else s.libraries j := rfl

@[simp]
theorem setLibrary_books (s : State) (i : Nat) (li : Library) :
    (s.setLibrary i li).books = s.books := rfl

@[simp]
theorem setLibrary_shelves (s : State) (i : Nat) (li : Library) :
    (s.setLibrary i li).shelves = s.shelves := rfl

@[simp]
theorem setLibrary_lists (s : State) (i : Nat) (li : Library) :
    (s.setLibrary i li).lists = s.lists := rfl

@[simp]
theorem setList_lists (s : State) (r : Nat) (l : List Nat) (q : Nat) :
    (s.setList r l).lists q = if q = r then l else s.lists q := rfl

@[simp]
theorem setList_books (s : State) (r : Nat) (l : List Nat) :
    (s.setList r l).books = s.books := rfl

@[simp]
theorem setList_shelves (s : State) (r : Nat) (l : List Nat) :
    (s.setList r l).shelves = s.shelves := rfl

@[simp]
theorem setList_libraries (s : State) (r : Nat) (l : List Nat) :
    (s.setList r l).libraries = s.libraries := rfl

/-- Updating the `library` field twice keeps only the second write. -/
@[simp]
theorem shelf_set_library_twice (sh : Shelf) (x y : Option Nat) :
    ({ { sh with library := x } with library := y } : Shelf) = { sh with library := y } := rfl

/-- Updating a Book's back-references twice keeps only the second write. -/
@[simp]
theorem book_set_refs_twice (b : Book) (x y u v : Option Nat) :
    ({ { b with library := x, shelf := y } with library := u, shelf := v } : Book)
      = { b with library := u, shelf := v } := rfl

/-! Lemmas about the constructor copy loop. -/

theorem copyInto_books (r : Nat) (src : List Nat) (s : State) :
    (copyInto r src s).books = s.books := by
  induction src generalizing s with
  | nil => rfl
  | cons x xs ih =>
      show (copyInto r xs (s.setList r (s.lists r ++ [x]))).books = s.books
      rw [ih]
      rfl

theorem copyInto_shelves (r : Nat) (src : List Nat) (s : State) :
    (copyInto r src s).shelves = s.shelves := by
  induction src generalizing s with
  | nil => rfl
  | cons x xs ih =>
      show (copyInto r xs (s.setList r (s.lists r ++ [x]))).shelves = s.shelves
      rw [ih]
      rfl

theorem copyInto_libraries (r : Nat) (src : List Nat) (s : State) :
    (copyInto r src s).libraries = s.libraries := by
  induction src generalizing s with
  | nil => rfl
  | cons x xs ih =>
      show (copyInto r xs (s.setList r (s.lists r ++ [x]))).libraries = s.libraries
      rw [ih]
      rfl

theorem copyInto_lists_self (r : Nat) (src : List Nat) (s : State) :
    (copyInto r src s).lists r = s.lists r ++ src := by
  induction src generalizing s with
  | nil => simp [copyInto]
  | cons x xs ih =>
      show (copyInto r xs (s.setList r (s.lists r ++ [x]))).lists r = _
      rw [ih]
      simp

theorem copyInto_lists_ne (r : Nat) (src : List Nat) (s : State) (q : Nat) (h : q ≠ r) :
    (copyInto r src s).lists q = s.lists q := by
  induction src generalizing s with
  | nil => rfl
  | cons x xs ih =>
      show (copyInto r xs (s.setList r (s.lists r ++ [x]))).lists q = s.lists q
      rw [ih]
      simp [h]

/-! Closed form of `Library._sync_shelves`. -/

theorem syncShelvesAux_books (lid : Nat) (l : List Nat) (s : State) :
    (syncShelvesAux lid l s).books = s.books := by
  induction l generalizing s with
  | nil => rfl
  | cons a as ih =>
      show (syncShelvesAux lid as (s.setShelf a { s.shelves a with library := some lid })).books
        = s.books
      rw [ih]
      rfl

theorem syncShelvesAux_libraries (lid : Nat) (l : List Nat) (s : State) :
    (syncShelvesAux lid l s).libraries = s.libraries := by
  induction l generalizing s with
  | nil => rfl
  | cons a as ih =>
      show (syncShelvesAux lid as (s.setShelf a { s.shelves a with library := some lid })).libraries
        = s.libraries
      rw [ih]
      rfl

theorem syncShelvesAux_lists (lid : Nat) (l : List Nat) (s : State) :
    (syncShelvesAux lid l s).lists = s.lists := by
  induction l generalizing s with
  | nil => rfl
  | cons a as ih =>
      show (syncShelvesAux lid as (s.setShelf a { s.shelves a with library := some lid })).lists
        = s.lists
      rw [ih]
      rfl

theorem syncShelvesAux_shelves (lid : Nat) (l : List Nat) (s : State) (i : Nat) :
    (syncShelvesAux lid l s).shelves i =
      if i ∈ l then { s.shelves i with library := some lid } else s.shelves i := by
  induction l generalizing s with
  | nil => simp [syncShelvesAux]
  | cons a as ih =>
      show (syncShelvesAux lid as (s.setShelf a { s.shelves a with library := some lid })).shelves i
        = _
      rw [ih]
      by_cases hia : i = a
      · subst hia
        by_cases him : i ∈ as <;> simp [him]
      · by_cases him : i ∈ as <;> simp [him, hia]

/-! Closed form of `Shelf._sync_books`. -/

theorem syncBooksAux_shelves (sid : Nat) (l : List Nat) (s : State) :
    (syncBooksAux sid l s).shelves = s.shelves := by
  induction l generalizing s with
  | nil => rfl
  | cons a as ih =>
      show (syncBooksAux sid as
        (s.setBook a
          { s.books a with library := (s.shelves sid).library, shelf := some sid })).shelves
        = s.shelves
      rw [ih]
      rfl

theorem syncBooksAux_libraries (sid : Nat) (l : List Nat) (s : State) :
    (syncBooksAux sid l s).libraries = s.libraries := by
  induction l generalizing s with
  | nil => rfl
  | cons a as ih =>
      show (syncBooksAux sid as
        (s.setBook a
          { s.books a with library := (s.shelves sid).library, shelf := some sid })).libraries
        = s.libraries
      rw [ih]
      rfl

theorem syncBooksAux_lists (sid : Nat) (l : List Nat) (s : State) :
    (syncBooksAux sid l s).lists = s.lists := by
  induction l generalizing s with
  | nil => rfl
  | cons a as ih =>
      show (syncBooksAux sid as
        (s.setBook a
          { s.books a with library := (s.shelves sid).library, shelf := some sid })).lists
        = s.lists
      rw [ih]
      rfl

theorem syncBooksAux_books (sid : Nat) (l : List Nat) (s : State) (j : Nat) :
    (syncBooksAux sid l s).books j =
      if j ∈ l then { s.books j with library := (s.shelves sid).library, shelf := some sid }
      else s.books j := by
  induction l generalizing s with
  | nil => simp [syncBooksAux]
  | cons a as ih =>
      show (syncBooksAux sid as
        (s.setBook a
          { s.books a with library := (s.shelves sid).library, shelf := some sid })).books j
        = _
      rw [ih]
      by_cases hja : j = a
      · subst hja
        by_cases hm : j ∈ as <;> simp [hm]
      · by_cases hm : j ∈ as <;> simp [hm, hja]

/-- `Shelf._sync_books` leaves the shelf store untouched. -/
theorem shelf_sync_books_shelves (sid : Nat) (s : State) :
    (Shelf.sync_books sid s).shelves = s.shelves :=
  syncBooksAux_shelves sid _ s

/-- `Shelf._sync_books` leaves the library store untouched. -/
theorem shelf_sync_books_libraries (sid : Nat) (s : State) :
    (Shelf.sync_books sid s).libraries = s.libraries :=
  syncBooksAux_libraries sid _ s

/-- `Shelf._sync_books` leaves the list store untouched. -/
theorem shelf_sync_books_lists (sid : Nat) (s : State) :
    (Shelf.sync_books sid s).lists = s.lists :=
  syncBooksAux_lists sid _ s

/-- Closed form of `Shelf._sync_books` on the book store. -/
theorem shelf_sync_books_books (sid : Nat) (s : State) (j : Nat) :
    (Shelf.sync_books sid s).books j =
      if j ∈ s.lists (s.shelves sid).books then
        { s.books j with library := (s.shelves sid).library, shelf := some sid }
      else s.books j :=
  syncBooksAux_books sid _ s j

/-! The net effect of `Library._sync_books` on a book is decided by the last
shelf, in iteration order, whose collection contains it. -/

theorem lastOwnerFrom_shift (s : State) (j : Nat) (l : List Nat) (acc : Option Nat) :
    lastOwnerFrom s j l acc =
      match lastOwnerFrom s j l none with
      | some t => some t
      | none => acc := by
  induction l generalizing acc with
  | nil => rfl
  | cons a as ih =>
      show lastOwnerFrom s j as (if j ∈ s.lists (s.shelves a).books then some a else acc)
        = match lastOwnerFrom s j as
            (if j ∈ s.lists (s.shelves a).books then some a else none) with
          | some t => some t
          | none => acc
      rw [ih, ih (if j ∈ s.lists (s.shelves a).books then some a else none)]
      rcases h : lastOwnerFrom s j as none with _ | t
      · by_cases hja : j ∈ s.lists (s.shelves a).books <;> simp [hja]
      · simp

theorem lastOwnerFrom_congr (s t : State) (j : Nat) (l : List Nat) (acc : Option Nat)
    (h : ∀ u, t.lists (t.shelves u).books = s.lists (s.shelves u).books) :
    lastOwnerFrom t j l acc = lastOwnerFrom s j l acc := by
  induction l generalizing acc with
  | nil => rfl
  | cons a as ih =>
      show lastOwnerFrom t j as (if j ∈ t.lists (t.shelves a).books then some a else acc) = _
      rw [h a, ih]
      rfl

theorem lastOwnerFrom_mem (s : State) (j : Nat) (l : List Nat) (acc : Option Nat) (t : Nat)
    (h : lastOwnerFrom s j l acc = some t) :
    (t ∈ l ∧ j ∈ s.lists (s.shelves t).books) ∨ acc = some t := by
  induction l generalizing acc with
  | nil => exact Or.inr h
  | cons a as ih =>
      have h2 : lastOwnerFrom s j as
          (if j ∈ s.lists (s.shelves a).books then some a else acc) = some t := h
      rcases ih _ h2 with ⟨hm, hj⟩ | hacc
      · exact Or.inl ⟨List.mem_cons_of_mem _ hm, hj⟩
      · by_cases hja : j ∈ s.lists (s.shelves a).books
        · rw [if_pos hja] at hacc
          have hat : a = t := Option.some.inj hacc
          subst hat
          exact Or.inl ⟨List.mem_cons_self a as, hja⟩
        · rw [if_neg hja] at hacc
          exact Or.inr hacc

theorem lastOwnerFrom_unique (s : State) (j : Nat) (l : List Nat) (t : Nat)
    (huniq : ∀ u ∈ l, j ∈ s.lists (s.shelves u).books → u = t) :
    ∀ acc, (acc = some t ∨ (t ∈ l ∧ j ∈ s.lists (s.shelves t).books)) →
      lastOwnerFrom s j l acc = some t := by
  induction l with
  | nil =>
      rintro acc (hacc | ⟨ht, _⟩)
      · exact hacc
      · cases ht
  | cons a as ih =>
      intro acc hacc
      have huniq2 : ∀ u ∈ as, j ∈ s.lists (s.shelves u).books → u = t :=
        fun u hu => huniq u (List.mem_cons_of_mem _ hu)
      show lastOwnerFrom s j as
        (if j ∈ s.lists (s.shelves a).books then some a else acc) = some t
      by_cases hja : j ∈ s.lists (s.shelves a).books
      · have hat : a = t := huniq a (List.mem_cons_self a as) hja
        subst hat
        rw [if_pos hja]
        exact ih huniq2 _ (Or.inl rfl)
      · rw [if_neg hja]
        rcases hacc with hacc | ⟨ht, hjt⟩
        · exact ih huniq2 _ (Or.inl hacc)
        · rcases List.mem_cons.mp ht with h3 | h3
          · rw [h3] at hjt
            exact absurd hjt hja
          · exact ih huniq2 _ (Or.inr ⟨h3, hjt⟩)

/-! Closed form of `Library._sync_books`. -/

theorem libBooksAux_shelves (l : List Nat) (s : State) :
    (libBooksAux l s).shelves = s.shelves := by
  induction l generalizing s with
  | nil => rfl
  | cons a as ih =>
      show (libBooksAux as (Shelf.sync_books a s)).shelves = s.shelves
      rw [ih, shelf_sync_books_shelves]

theorem libBooksAux_libraries (l : List Nat) (s : State) :
    (libBooksAux l s).libraries = s.libraries := by
  induction l generalizing s with
  | nil => rfl
  | cons a as ih =>
      show (libBooksAux as (Shelf.sync_books a s)).libraries = s.libraries
      rw [ih, shelf_sync_books_libraries]

theorem libBooksAux_lists (l : List Nat) (s : State) :
    (libBooksAux l s).lists = s.lists := by
  induction l generalizing s with
  | nil => rfl
  | cons a as ih =>
      show (libBooksAux as (Shelf.sync_books a s)).lists = s.lists
      rw [ih, shelf_sync_books_lists]

theorem libBooksAux_books (l : List Nat) (s : State) (j : Nat) :
    (libBooksAux l s).books j =
      match lastOwnerFrom s j l none with
      | none => s.books j
      | some t => { s.books j with library := (s.shelves t).library, shelf := some t } := by
  induction l generalizing s with
  | nil => rfl
  | cons a as ih =>
      have hcongr : ∀ u,
          (Shelf.sync_books a s).lists ((Shelf.sync_books a s).shelves u).books
            = s.lists (s.shelves u).books := by
        intro u
        rw [shelf_sync_books_shelves, shelf_sync_books_lists]
      show (libBooksAux as (Shelf.sync_books a s)).books j = _
      rw [ih, lastOwnerFrom_congr _ _ _ _ _ hcongr, shelf_sync_books_shelves]
      conv_rhs =>
        rw [show lastOwnerFrom s j (a :: as) none
          = lastOwnerFrom s j as
              (if j ∈ s.lists (s.shelves a).books then some a else none) from rfl]
        rw [lastOwnerFrom_shift]
      rcases hc : lastOwnerFrom s j as none with _ | t
      · rw [shelf_sync_books_books]
        by_cases hja : j ∈ s.lists (s.shelves a).books <;> simp [hja]
      · rw [shelf_sync_books_books]
        by_cases hja : j ∈ s.lists (s.shelves a).books <;> simp [hja]

/-! Wrappers at the level of the source methods. -/

theorem lib_sync_shelves_books (lid : Nat) (s : State) :
    (Library.sync_shelves lid s).books = s.books :=
  syncShelvesAux_books lid _ s

theorem lib_sync_shelves_libraries (lid : Nat) (s : State) :
    (Library.sync_shelves lid s).libraries = s.libraries :=
  syncShelvesAux_libraries lid _ s

theorem lib_sync_shelves_lists (lid : Nat) (s : State) :
    (Library.sync_shelves lid s).lists = s.lists :=
  syncShelvesAux_lists lid _ s

theorem lib_sync_shelves_shelves (lid : Nat) (s : State) (i : Nat) :
    (Library.sync_shelves lid s).shelves i =
      if i ∈ s.lists (s.libraries lid).shelves then { s.shelves i with library := some lid }
      else s.shelves i :=
  syncShelvesAux_shelves lid _ s i

theorem lib_sync_books_shelves (lid : Nat) (s : State) :
    (Library.sync_books lid s).shelves = s.shelves :=
  libBooksAux_shelves _ s

theorem lib_sync_books_libraries (lid : Nat) (s : State) :
    (Library.sync_books lid s).libraries = s.libraries :=
  libBooksAux_libraries _ s

theorem lib_sync_books_lists (lid : Nat) (s : State) :
    (Library.sync_books lid s).lists = s.lists :=
  libBooksAux_lists _ s

theorem lib_sync_books_books (lid : Nat) (s : State) (j : Nat) :
    (Library.sync_books lid s).books j =
      match lastOwnerFrom s j (s.lists (s.libraries lid).shelves) none with
      | none => s.books j
      | some t => { s.books j with library := (s.shelves t).library, shelf := some t } :=
  libBooksAux_books _ s j

/-! Closed form of the combined operation
`self._sync_shelves(); self._sync_books()`. -/

theorem combo_lists (lid : Nat) (s : State) :
    (Library.sync_books lid (Library.sync_shelves lid s)).lists = s.lists := by
  rw [lib_sync_books_lists, lib_sync_shelves_lists]

theorem combo_libraries (lid : Nat) (s : State) :
    (Library.sync_books lid (Library.sync_shelves lid s)).libraries = s.libraries := by
  rw [lib_sync_books_libraries, lib_sync_shelves_libraries]

theorem combo_shelves (lid : Nat) (s : State) (i : Nat) :
    (Library.sync_books lid (Library.sync_shelves lid s)).shelves i =
      if i ∈ s.lists (s.libraries lid).shelves then { s.shelves i with library := some lid }
      else s.shelves i := by
  rw [show (Library.sync_books lid (Library.sync_shelves lid s)).shelves
      = (Library.sync_shelves lid s).shelves from lib_sync_books_shelves lid _]
  rw [lib_sync_shelves_shelves]

/-- The `books` ref field of every shelf survives the combined sync. -/
theorem combo_shelf_books_field (lid : Nat) (s : State) (u : Nat) :
    ((Library.sync_books lid (Library.sync_shelves lid s)).shelves u).books
      = (s.shelves u).books := by
  rw [combo_shelves]
  split <;> rfl

theorem combo_books (lid : Nat) (s : State) (j : Nat) :
    (Library.sync_books lid (Library.sync_shelves lid s)).books j =
      match lastOwnerFrom s j (s.lists (s.libraries lid).shelves) none with
      | none => s.books j
      | some t => { s.books j with library := some lid, shelf := some t } := by
  have hshb : ∀ u, ((Library.sync_shelves lid s).shelves u).books = (s.shelves u).books := by
    intro u
    rw [lib_sync_shelves_shelves]
    split <;> rfl
  have hcongr : ∀ u,
      (Library.sync_shelves lid s).lists ((Library.sync_shelves lid s).shelves u).books
        = s.lists (s.shelves u).books := by
    intro u
    rw [lib_sync_shelves_lists, hshb]
  rw [lib_sync_books_books, lib_sync_shelves_lists, lib_sync_shelves_libraries,
    lastOwnerFrom_congr _ _ _ _ _ hcongr, lib_sync_shelves_books]
  rcases hc : lastOwnerFrom s j (s.lists (s.libraries lid).shelves) none with _ | t
  · rfl
  · have htL : t ∈ s.lists (s.libraries lid).shelves := by
      rcases lastOwnerFrom_mem _ _ _ _ _ hc with ⟨hm, _⟩ | habs
      · exact hm
      · exact absurd habs (by simp)
    have hlib : ((Library.sync_shelves lid s).shelves t).library = some lid := by
      rw [lib_sync_shelves_shelves, if_pos htL]
    simp [hlib]

/-- The combined sync is idempotent: running
`_sync_shelves(); _sync_books()` a second time does not change the state. -/
theorem combo_idem (lid : Nat) (s : State) :
    Library.sync_books lid (Library.sync_shelves lid
      (Library.sync_books lid (Library.sync_shelves lid s)))
      = Library.sync_books lid (Library.sync_shelves lid s) := by
  have hlist : (Library.sync_books lid (Library.sync_shelves lid s)).lists
      ((Library.sync_books lid (Library.sync_shelves lid s)).libraries lid).shelves
      = s.lists (s.libraries lid).shelves := by
    rw [combo_lists, combo_libraries]
  have hcongr : ∀ u,
      (Library.sync_books lid (Library.sync_shelves lid s)).lists
        ((Library.sync_books lid (Library.sync_shelves lid s)).shelves u).books
        = s.lists (s.shelves u).books := by
    intro u
    rw [combo_lists, combo_shelf_books_field]
  apply State.ext
  · funext j
    rw [combo_books lid (Library.sync_books lid (Library.sync_shelves lid s)) j, hlist,
      lastOwnerFrom_congr _ _ _ _ _ hcongr]
    rcases hc : lastOwnerFrom s j (s.lists (s.libraries lid).shelves) none with _ | t
    · rfl
    · simp only [combo_books lid s j, hc]
  · funext i
    rw [combo_shelves lid (Library.sync_books lid (Library.sync_shelves lid s)) i, hlist]
    by_cases him : i ∈ s.lists (s.libraries lid).shelves
    · simp only [if_pos him, combo_shelves lid s i, shelf_set_library_twice]
    · rw [if_neg him]
  · rw [combo_libraries lid (Library.sync_books lid (Library.sync_shelves lid s)),
      combo_libraries lid s]
  · rw [combo_lists lid (Library.sync_books lid (Library.sync_shelves lid s)),
      combo_lists lid s]

/-! Facts about the constructors. -/

theorem library_init_unfold (s : State) (lid : Nat) (nm : String) (ini : List Nat) (r : Nat) :
    Library.init s lid nm ini r
      = Library.sync_books lid (Library.sync_shelves lid
          (copyInto r ini ((s.setLibrary lid { name := nm, shelves := r }).setList r []))) := rfl

theorem shelf_init_unfold (s : State) (sid : Nat) (nm : String) (ini : List Nat) (r : Nat) :
    Shelf.init s sid nm ini r
      = Shelf.sync_books sid
          (copyInto r ini
            ((s.setShelf sid { name := nm, books := r, library := none }).setList r [])) := rfl

/-- After `Library.__init__`, the new Library object holds `name` and the fresh
list object `r`. -/
theorem library_init_libraries (s : State) (lid : Nat) (nm : String) (ini : List Nat) (r : Nat) :
    (Library.init s lid nm ini r).libraries lid = { name := nm, shelves := r } := by
  rw [library_init_unfold, combo_libraries, copyInto_libraries]
  simp

/-- After `Library.__init__`, the fresh list object `r` holds exactly the
contents of the initial sequence. -/
theorem library_init_lists_r (s : State) (lid : Nat) (nm : String) (ini : List Nat) (r : Nat) :
    (Library.init s lid nm ini r).lists r = ini := by
  rw [library_init_unfold, combo_lists, copyInto_lists_self]
  simp

/-- Before the syncs of `Library.__init__`, the library's shelf collection is
exactly the initial sequence. -/
theorem library_init_pre_lists (s : State) (lid : Nat) (nm : String) (ini : List Nat) (r : Nat) :
    (copyInto r ini ((s.setLibrary lid { name := nm, shelves := r }).setList r [])).lists
      ((copyInto r ini
        ((s.setLibrary lid { name := nm, shelves := r }).setList r [])).libraries lid).shelves
      = ini := by
  have h1 : (copyInto r ini
      ((s.setLibrary lid { name := nm, shelves := r }).setList r [])).libraries lid
      = { name := nm, shelves := r } := by
    rw [copyInto_libraries]
    simp
  rw [h1]
  show (copyInto r ini _).lists r = ini
  rw [copyInto_lists_self]
  simp

/-- After `Shelf.__init__`, the new Shelf object holds `name`, the fresh list
object `r`, and an absent library back-reference. -/
theorem shelf_init_shelves (s : State) (sid : Nat) (nm : String) (ini : List Nat) (r : Nat) :
    (Shelf.init s sid nm ini r).shelves sid = { name := nm, books := r, library := none } := by
  rw [shelf_init_unfold, shelf_sync_books_shelves, copyInto_shelves]
  simp

/-- After `Shelf.__init__`, the fresh list object `r` holds exactly the
contents of the initial sequence. -/
theorem shelf_init_lists_r (s : State) (sid : Nat) (nm : String) (ini : List Nat) (r : Nat) :
    (Shelf.init s sid nm ini r).lists r = ini := by
  rw [shelf_init_unfold, shelf_sync_books_lists, copyInto_lists_self]
  simp

/-- Core consequence of the combined `_sync_shelves(); _sync_books()`: every
shelf in the collection points back at the library, and, when no book sits in
the collections of two distinct shelves, every book points back at its
containing shelf and at the library. -/
theorem combo_backrefs (q : State) (lid : Nat) :
    (∀ sid ∈ q.lists (q.libraries lid).shelves,
      ((Library.sync_books lid (Library.sync_shelves lid q)).shelves sid).library = some lid) ∧
    ((∀ t ∈ q.lists (q.libraries lid).shelves, ∀ u ∈ q.lists (q.libraries lid).shelves,
        ∀ b ∈ q.lists (q.shelves t).books, b ∈ q.lists (q.shelves u).books → t = u) →
      ∀ sid ∈ q.lists (q.libraries lid).shelves, ∀ b ∈ q.lists (q.shelves sid).books,
        ((Library.sync_books lid (Library.sync_shelves lid q)).books b).shelf = some sid ∧
        ((Library.sync_books lid (Library.sync_shelves lid q)).books b).library = some lid) := by
  constructor
  · intro sid hsid
    rw [combo_shelves, if_pos hsid]
  · intro hns sid hsid b hb
    have huniq : ∀ u ∈ q.lists (q.libraries lid).shelves,
        b ∈ q.lists (q.shelves u).books → u = sid :=
      fun u hu hbu => hns u hu sid hsid b hbu hb
    have howner : lastOwnerFrom q b (q.lists (q.libraries lid).shelves) none = some sid :=
      lastOwnerFrom_unique q b _ sid huniq none (Or.inr ⟨hsid, hb⟩)
    have hbk : (Library.sync_books lid (Library.sync_shelves lid q)).books b
        = { q.books b with library := some lid, shelf := some sid } := by
      rw [combo_books, howner]
    rw [hbk]
    exact ⟨rfl, rfl⟩

/-- Folding list concatenation over a list is flattening. -/
theorem foldl_append_flatten (f : Nat → List Nat) (l : List Nat) (acc : List Nat) :
    l.foldl (fun a x => a ++ f x) acc = acc ++ (l.map f).flatten := by
  induction l generalizing acc with
  | nil => simp
  | cons x xs ih => simp [ih]

/-- Claim C3: appending a Shelf directly to a Library's `shelves` collection,
and appending or extending Books directly into a Shelf's `books` collection,
changes no back-reference: the appended Shelf's `library` field and the
appended Books' `shelf` and `library` fields keep their previous values until
a sync operation is explicitly invoked — there is no automatic
synchronization on mutation. -/
theorem mutation_without_sync_is_inert (s : State) (lid : Nat) (x : Nat) (sid : Nat)
    (xs : List Nat) :
    ((listAppend s (s.libraries lid).shelves x).shelves x).library = (s.shelves x).library ∧
    (∀ b, ((listExtend s (s.shelves sid).books xs).books b).shelf = (s.books b).shelf ∧
          ((listExtend s (s.shelves sid).books xs).books b).library = (s.books b).library) :=
  ⟨rfl, fun _ => ⟨rfl, rfl⟩⟩

/-- Claim C4: sync overwrites unconditionally rather than only filling absent
references: `_sync_shelves` sets every contained shelf's `library` to this
Library whatever it was before, and `Shelf._sync_books` sets every contained
book's `shelf` to this Shelf and its `library` to this Shelf's current
`library` value, whatever the book held before. -/
theorem sync_overwrites_unconditionally (s : State) (lid sid : Nat) :
    (∀ t ∈ s.lists (s.libraries lid).shelves,
      ((Library.sync_shelves lid s).shelves t).library = some lid) ∧
    (∀ b ∈ s.lists (s.shelves sid).books,
      ((Shelf.sync_books sid s).books b).shelf = some sid ∧
      ((Shelf.sync_books sid s).books b).library = (s.shelves sid).library) := by
  constructor
  · intro t ht
    rw [lib_sync_shelves_shelves, if_pos ht]
  · intro b hb
    rw [shelf_sync_books_books, if_pos hb]
    exact ⟨rfl, rfl⟩

/-- Witness for C4: in `staleState` shelf 0 was bound to library 7 and book 0
to library 9 and shelf 9; sync rebinds them regardless. -/
theorem sync_overwrites_unconditionally_witness :
    ((Library.sync_shelves 0 staleState).shelves 0).library = some 0 ∧
    ((Shelf.sync_books 0 staleState).books 0).shelf = some 0 ∧
    ((Shelf.sync_books 0 staleState).books 0).library = (staleState.shelves 0).library := by
  have h := sync_overwrites_unconditionally staleState 0 0
  have hb := h.2 0 (by decide)
  exact ⟨h.1 0 (by decide), hb.1, hb.2⟩

/-- Claim C5: immediately after constructing a Shelf with a name and an
initial sequence of Books, the Shelf's `library` back-reference is absent,
and every book of the initial sequence has `shelf` equal to the new Shelf and
`library` equal to the Shelf's library at construction time, i.e. absent. -/
theorem shelf_construction_sync (s : State) (sid : Nat) (nm : String) (ini : List Nat)
    (r : Nat) (s3 : State) (hs : s3 = Shelf.init s sid nm ini r) :
    (s3.shelves sid).library = none ∧
    ∀ b ∈ ini, (s3.books b).shelf = some sid ∧ (s3.books b).library = none := by
  subst hs
  constructor
  · rw [shelf_init_shelves]
  · intro b hb
    rw [shelf_init_unfold]
    have hsh : (copyInto r ini
        ((s.setShelf sid { name := nm, books := r, library := none }).setList r [])).shelves sid
        = { name := nm, books := r, library := none } := by
      rw [copyInto_shelves]
      simp
    have hlr : (copyInto r ini
        ((s.setShelf sid { name := nm, books := r, library := none }).setList r [])).lists r
        = ini := by
      rw [copyInto_lists_self]
      simp
    have hcond : b ∈ (copyInto r ini
        ((s.setShelf sid { name := nm, books := r, library := none }).setList r [])).lists
        ((copyInto r ini
          ((s.setShelf sid
            { name := nm, books := r, library := none }).setList r [])).shelves sid).books := by
      rw [hsh]
      show b ∈ (copyInto r ini _).lists r
      rw [hlr]
      exact hb
    rw [shelf_sync_books_books, if_pos hcond, hsh]
    exact ⟨rfl, rfl⟩

/-- Witness for C5: a shelf constructed with book 0. -/
theorem shelf_construction_sync_witness :
    ((Shelf.init emptyState 0 "s" [0] 1).shelves 0).library = none ∧
    ((Shelf.init emptyState 0 "s" [0] 1).books 0).shelf = some 0 ∧
    ((Shelf.init emptyState 0 "s" [0] 1).books 0).library = none := by
  have h := shelf_construction_sync emptyState 0 "s" [0] 1 _ rfl
  have hb := h.2 0 (by decide)
  exact ⟨h.1, hb.1, hb.2⟩

/-- Claim C6: `get_books` returns exactly the concatenation of the shelves'
book collections in shelf order, each shelf's books in their own order, with
no deduplication; in particular its length is the sum of the lengths of every
shelf's book collection. -/
theorem get_books_is_concatenation (s : State) (lid : Nat) :
    Library.get_books s lid = get_books_spec s lid ∧
    (Library.get_books s lid).length
      = ((s.lists (s.libraries lid).shelves).map
          (fun sid => (s.lists (s.shelves sid).books).length)).sum := by
  have h : Library.get_books s lid = get_books_spec s lid := by
    unfold Library.get_books get_books_spec Shelf.get_books
    rw [foldl_append_flatten]
    simp
  refine ⟨h, ?_⟩
  rw [h]
  unfold get_books_spec
  rw [List.length_flatten, List.map_map]
  rfl

/-- Claim C8: `get_shelves` and `get_books` return the live internal list
object, not a copy: the returned value is the containment field itself, so
appending through it is the same operation as appending to the field, and an
element appended through the returned reference is visited by a subsequent
sync. -/
theorem getters_return_live_references (s : State) (lid sid x b : Nat) :
    Library.get_shelves s lid = (s.libraries lid).shelves ∧
    Shelf.get_books s sid = (s.shelves sid).books ∧
    listAppend s (Library.get_shelves s lid) x = listAppend s (s.libraries lid).shelves x ∧
    ((Library.sync_shelves lid
      (listAppend s (Library.get_shelves s lid) x)).shelves x).library = some lid ∧
    ((Shelf.sync_books sid
      (listAppend s (Shelf.get_books s sid) b)).books b).shelf = some sid := by
  refine ⟨rfl, rfl, rfl, ?_, ?_⟩
  · have hx : x ∈ (listAppend s (Library.get_shelves s lid) x).lists
        ((listAppend s (Library.get_shelves s lid) x).libraries lid).shelves := by
      simp [listAppend, Library.get_shelves]
    rw [lib_sync_shelves_shelves, if_pos hx]
  · have hb : b ∈ (listAppend s (Shelf.get_books s sid) b).lists
        ((listAppend s (Shelf.get_books s sid) b).shelves sid).books := by
      simp [listAppend, Shelf.get_books]
    rw [shelf_sync_books_books, if_pos hb]

/-- Claim C10: the human-readable display form is the name for a Library, the
name for a Shelf, and the single-quoted title for a Book. -/
theorem human_readable_forms (s : State) (lid sid bid : Nat) :
    Library.str s lid = (s.libraries lid).name ∧
    Shelf.str s sid = (s.shelves sid).name ∧
    Book.str s bid = "\x27" ++ (s.books bid).title ++ "\x27" :=
  ⟨rfl, rfl, rfl⟩

/-- Counterexample to claim C1 as stated: book 0 lies in the collections of
both shelf 0 and shelf 1 of the initial sequence; immediately after
construction its `shelf` back-reference is shelf 1, not its containing
shelf 0. -/
theorem library_construction_sync_cex :
    0 ∈ twoShelfScenario.lists ((twoShelfScenario.shelves 0).books) ∧
    (twoShelfScenario.books 0).shelf ≠ some 0 ∧
    (twoShelfScenario.books 0).shelf = some 1 := by
  decide

/-- Claim C1 (amended): for every Library constructed with a name and an
initial sequence of Shelves, immediately after construction every shelf of
the sequence has its `library` back-reference equal to the new Library; and,
provided no book lies in the book collections of two distinct shelves of the
sequence, every book in every such shelf's collection has `shelf` equal to
its containing shelf and `library` equal to the new Library. -/
theorem library_construction_sync (s : State) (lid : Nat) (nm : String) (ini : List Nat)
    (r : Nat) (s1 : State) (hs : s1 = Library.init s lid nm ini r) :
    (∀ sid ∈ ini, (s1.shelves sid).library = some lid) ∧
    ((∀ t ∈ ini, ∀ u ∈ ini, ∀ b ∈ s1.lists (s1.shelves t).books,
        b ∈ s1.lists (s1.shelves u).books → t = u) →
      ∀ sid ∈ ini, ∀ b ∈ s1.lists (s1.shelves sid).books,
        (s1.books b).shelf = some sid ∧ (s1.books b).library = some lid) := by
  subst hs
  have hL := library_init_pre_lists s lid nm ini r
  obtain ⟨h1, h2⟩ := combo_backrefs
    (copyInto r ini ((s.setLibrary lid { name := nm, shelves := r }).setList r [])) lid
  rw [← library_init_unfold] at h1 h2
  have hcoll : ∀ u,
      (Library.init s lid nm ini r).lists ((Library.init s lid nm ini r).shelves u).books
        = (copyInto r ini ((s.setLibrary lid { name := nm, shelves := r }).setList r [])).lists
            ((copyInto r ini
              ((s.setLibrary lid
                { name := nm, shelves := r }).setList r [])).shelves u).books := by
    intro u
    rw [library_init_unfold, combo_lists, combo_shelf_books_field]
  constructor
  · intro sid hsid
    exact h1 sid (by rw [hL]; exact hsid)
  · intro hns sid hsid b hb
    rw [hcoll] at hb
    refine h2 ?_ sid (by rw [hL]; exact hsid) b hb
    intro t ht u hu b2 hb2 hb2u
    rw [hL] at ht hu
    rw [← hcoll] at hb2 hb2u
    exact hns t ht u hu b2 hb2 hb2u

/-- Witness for the amended C1: a Library constructed over `oneShelfBase`
with the single shelf 0 holding book 0. -/
theorem library_construction_sync_witness :
    ((Library.init oneShelfBase 0 "L" [0] 1).shelves 0).library = some 0 ∧
    ((Library.init oneShelfBase 0 "L" [0] 1).books 0).shelf = some 0 ∧
    ((Library.init oneShelfBase 0 "L" [0] 1).books 0).library = some 0 := by
  have h := library_construction_sync oneShelfBase 0 "L" [0] 1 _ rfl
  have hb := h.2 (by decide) 0 (by decide) 0 (by decide)
  exact ⟨h.1 0 (by decide), hb.1, hb.2⟩

/-- Counterexample to claim C2 as stated: in `sharedBookState` book 0 lies in
the collections of both shelf 0 and shelf 1 of library 0; after
`_sync_shelves(); _sync_books()` its `shelf` back-reference is shelf 1, not
its containing shelf 0. -/
theorem sync_establishes_backrefs_cex :
    0 ∈ (Library.sync_books 0 (Library.sync_shelves 0 sharedBookState)).lists
      ((Library.sync_books 0 (Library.sync_shelves 0 sharedBookState)).libraries 0).shelves ∧
    0 ∈ (Library.sync_books 0 (Library.sync_shelves 0 sharedBookState)).lists
      ((Library.sync_books 0 (Library.sync_shelves 0 sharedBookState)).shelves 0).books ∧
    ((Library.sync_books 0 (Library.sync_shelves 0 sharedBookState)).books 0).shelf
      ≠ some 0 := by
  decide

/-- Claim C2 (amended): for every Library in any state, running
`_sync_shelves()` then `_sync_books()` gives every shelf in the library's
collection `library` equal to the Library; provided no book lies in the
collections of two distinct shelves of the library, every book under every
shelf gets `shelf` equal to its containing shelf and `library` equal to the
Library; and the combined operation is idempotent — running it a second time
leaves the entire state unchanged. -/
theorem sync_establishes_backrefs (s : State) (lid : Nat) (s2 : State)
    (hs : s2 = Library.sync_books lid (Library.sync_shelves lid s)) :
    (∀ sid ∈ s2.lists (s2.libraries lid).shelves, (s2.shelves sid).library = some lid) ∧
    ((∀ t ∈ s2.lists (s2.libraries lid).shelves, ∀ u ∈ s2.lists (s2.libraries lid).shelves,
        ∀ b ∈ s2.lists (s2.shelves t).books, b ∈ s2.lists (s2.shelves u).books → t = u) →
      ∀ sid ∈ s2.lists (s2.libraries lid).shelves, ∀ b ∈ s2.lists (s2.shelves sid).books,
        (s2.books b).shelf = some sid ∧ (s2.books b).library = some lid) ∧
    Library.sync_books lid (Library.sync_shelves lid s2) = s2 := by
  subst hs
  have hL : (Library.sync_books lid (Library.sync_shelves lid s)).lists
      ((Library.sync_books lid (Library.sync_shelves lid s)).libraries lid).shelves
      = s.lists (s.libraries lid).shelves := by
    rw [combo_lists, combo_libraries]
  have hcoll : ∀ u, (Library.sync_books lid (Library.sync_shelves lid s)).lists
      ((Library.sync_books lid (Library.sync_shelves lid s)).shelves u).books
      = s.lists (s.shelves u).books := by
    intro u
    rw [combo_lists, combo_shelf_books_field]
  obtain ⟨h1, h2⟩ := combo_backrefs s lid
  refine ⟨?_, ?_, combo_idem lid s⟩
  · intro sid hsid
    rw [hL] at hsid
    exact h1 sid hsid
  · intro hns sid hsid b hb
    rw [hL] at hsid
    rw [hcoll] at hb
    refine h2 ?_ sid hsid b hb
    intro t ht u hu b2 hb2 hb2u
    rw [← hL] at ht hu
    rw [← hcoll] at hb2 hb2u
    exact hns t ht u hu b2 hb2 hb2u

/-- Witness for the amended C2: syncing `oneLibBase`, whose library 0 holds
shelf 0 holding book 0. -/
theorem sync_establishes_backrefs_witness :
    ((Library.sync_books 0 (Library.sync_shelves 0 oneLibBase)).shelves 0).library = some 0 ∧
    ((Library.sync_books 0 (Library.sync_shelves 0 oneLibBase)).books 0).shelf = some 0 ∧
    Library.sync_books 0 (Library.sync_shelves 0
      (Library.sync_books 0 (Library.sync_shelves 0 oneLibBase)))
      = Library.sync_books 0 (Library.sync_shelves 0 oneLibBase) := by
  have h := sync_establishes_backrefs oneLibBase 0 _ rfl
  have hb := h.2.1 (by decide) 0 (by decide) 0 (by decide)
  exact ⟨h.1 0 (by decide), hb.1, h.2.2⟩

/-- Counterexample to claim C9 as stated: the diagnostic form of a Library
named "L" is not `Library: L` (the code encloses the template in angle
brackets). -/
theorem diagnostic_forms_cex :
    Library.reprStr namedLibState 0 ≠ "Library: L" := by
  decide

/-- Claim C9 (amended): the diagnostic forms are the spec's templates enclosed
in angle brackets: a Library renders as `<Library: name>`, a Shelf as
`<Shelf: name (library: X)>` and a Book as
`<Book: title by author (library: X, shelf: Y)>`, where X and Y are the
parent's human-readable form, or the literal marker `None` when the
back-reference is absent. -/
theorem diagnostic_forms (s : State) (lid sid bid : Nat) :
    Library.reprStr s lid = "<Library: " ++ (s.libraries lid).name ++ ">" ∧
    ((s.shelves sid).library = none →
      Shelf.reprStr s sid
        = "<Shelf: " ++ (s.shelves sid).name ++ " (library: " ++ "None" ++ ")>") ∧
    (∀ l, (s.shelves sid).library = some l →
      Shelf.reprStr s sid
        = "<Shelf: " ++ (s.shelves sid).name ++ " (library: " ++ Library.str s l ++ ")>") ∧
    ((s.books bid).library = none → (s.books bid).shelf = none →
      Book.reprStr s bid
        = "<Book: " ++ (s.books bid).title ++ " by " ++ (s.books bid).author
            ++ " (library: " ++ "None" ++ ", shelf: " ++ "None" ++ ")>") ∧
    (∀ t, (s.books bid).library = none → (s.books bid).shelf = some t →
      Book.reprStr s bid
        = "<Book: " ++ (s.books bid).title ++ " by " ++ (s.books bid).author
            ++ " (library: " ++ "None" ++ ", shelf: " ++ Shelf.str s t ++ ")>") ∧
    (∀ l, (s.books bid).library = some l → (s.books bid).shelf = none →
      Book.reprStr s bid
        = "<Book: " ++ (s.books bid).title ++ " by " ++ (s.books bid).author
            ++ " (library: " ++ Library.str s l ++ ", shelf: " ++ "None" ++ ")>") ∧
    (∀ l t, (s.books bid).library = some l → (s.books bid).shelf = some t →
      Book.reprStr s bid
        = "<Book: " ++ (s.books bid).title ++ " by " ++ (s.books bid).author
            ++ " (library: " ++ Library.str s l ++ ", shelf: " ++ Shelf.str s t ++ ")>") := by
  refine ⟨rfl, ?_, ?_, ?_, ?_, ?_, ?_⟩
  · intro h
    simp [Shelf.reprStr, strOfOptLibrary, h]
  · intro l h
    simp [Shelf.reprStr, strOfOptLibrary, h]
  · intro h1 h2
    simp [Book.reprStr, strOfOptLibrary, strOfOptShelf, h1, h2]
  · intro t h1 h2
    simp [Book.reprStr, strOfOptLibrary, strOfOptShelf, h1, h2]
  · intro l h1 h2
    simp [Book.reprStr, strOfOptLibrary, strOfOptShelf, h1, h2]
  · intro l t h1 h2
    simp [Book.reprStr, strOfOptLibrary, strOfOptShelf, h1, h2]

/-- Witness for the amended C9: absent back-references in `emptyState` render
as `None`, present ones in `staleState` render as the parent's human-readable
form. -/
theorem diagnostic_forms_witness :
    Shelf.reprStr emptyState 0 = "<Shelf: " ++ "" ++ " (library: " ++ "None" ++ ")>" ∧
    Shelf.reprStr staleState 0
      = "<Shelf: " ++ "s" ++ " (library: " ++ Library.str staleState 7 ++ ")>" ∧
    Book.reprStr emptyState 0
      = "<Book: " ++ "" ++ " by " ++ ""
          ++ " (library: " ++ "None" ++ ", shelf: " ++ "None" ++ ")>" ∧
    Book.reprStr mixedBookState 0
      = "<Book: " ++ "t" ++ " by " ++ "a"
          ++ " (library: " ++ "None" ++ ", shelf: " ++ Shelf.str mixedBookState 0 ++ ")>" ∧
    Book.reprStr mixedBookState 1
      = "<Book: " ++ "u" ++ " by " ++ "b"
          ++ " (library: " ++ Library.str mixedBookState 0 ++ ", shelf: " ++ "None" ++ ")>" ∧
    Book.reprStr staleState 0
      = "<Book: " ++ "t" ++ " by " ++ "a"
          ++ " (library: " ++ Library.str staleState 9 ++ ", shelf: "
          ++ Shelf.str staleState 9 ++ ")>" := by
  refine ⟨(diagnostic_forms emptyState 0 0 0).2.1 rfl, ?_, ?_, ?_, ?_, ?_⟩
  · exact (diagnostic_forms staleState 0 0 0).2.2.1 7 rfl
  · exact (diagnostic_forms emptyState 0 0 0).2.2.2.1 rfl rfl
  · exact (diagnostic_forms mixedBookState 0 0 0).2.2.2.2.1 0 rfl rfl
  · exact (diagnostic_forms mixedBookState 0 0 1).2.2.2.2.2.1 0 rfl rfl
  · exact (diagnostic_forms staleState 0 0 0).2.2.2.2.2.2 9 9 rfl rfl

/-- Claim C7: constructing a Library or a Shelf with an initial collection
copies that collection into an internally owned list object rather than
aliasing the caller's list: after construction with the contents of the
caller's list object `p` (respectively `pb`), appending to the caller's list
leaves the constructed entity's collection (reached through its own getter)
exactly the original contents — in particular its length is unchanged.  The
hypotheses say only that the internally allocated list object is fresh,
which Python's allocator guarantees. -/
theorem constructors_copy_initial_collections (s : State) (lid p r x sid pb rb y : Nat)
    (nm nms : String) (h1 : r ≠ p) (h2 : rb ≠ pb) :
    (listAppend (Library.init s lid nm (s.lists p) r) p x).lists
        (Library.get_shelves (listAppend (Library.init s lid nm (s.lists p) r) p x) lid)
      = s.lists p ∧
    (listAppend (Shelf.init s sid nms (s.lists pb) rb) pb y).lists
        (Shelf.get_books (listAppend (Shelf.init s sid nms (s.lists pb) rb) pb y) sid)
      = s.lists pb := by
  constructor
  · have href : ((listAppend (Library.init s lid nm (s.lists p) r) p x).libraries lid).shelves
        = r := by
      rw [show (listAppend (Library.init s lid nm (s.lists p) r) p x).libraries
          = (Library.init s lid nm (s.lists p) r).libraries from rfl, library_init_libraries]
    show (listAppend (Library.init s lid nm (s.lists p) r) p x).lists
        ((listAppend (Library.init s lid nm (s.lists p) r) p x).libraries lid).shelves
        = s.lists p
    rw [href]
    simp only [listAppend, setList_lists]
    rw [if_neg h1, library_init_lists_r]
  · have href : ((listAppend (Shelf.init s sid nms (s.lists pb) rb) pb y).shelves sid).books
        = rb := by
      rw [show (listAppend (Shelf.init s sid nms (s.lists pb) rb) pb y).shelves
          = (Shelf.init s sid nms (s.lists pb) rb).shelves from rfl, shelf_init_shelves]
    show (listAppend (Shelf.init s sid nms (s.lists pb) rb) pb y).lists
        ((listAppend (Shelf.init s sid nms (s.lists pb) rb) pb y).shelves sid).books
        = s.lists pb
    rw [href]
    simp only [listAppend, setList_lists]
    rw [if_neg h2, shelf_init_lists_r]

/-- Witness for C7: over `staleState`, whose list object 0 is `[0]`. -/
theorem constructors_copy_initial_collections_witness :
    (listAppend (Library.init staleState 0 "L" (staleState.lists 0) 1) 0 5).lists
        (Library.get_shelves
          (listAppend (Library.init staleState 0 "L" (staleState.lists 0) 1) 0 5) 0)
      = staleState.lists 0 ∧
    (listAppend (Shelf.init staleState 0 "S" (staleState.lists 0) 2) 0 6).lists
        (Shelf.get_books
          (listAppend (Shelf.init staleState 0 "S" (staleState.lists 0) 2) 0 6) 0)
      = staleState.lists 0 :=
  constructors_copy_initial_collections staleState 0 0 1 5 0 0 2 6 "L" "S"
    (by decide) (by decide)

end PyLib
